import Mathlib

/-
  Verification of the connection-resilience state machine of
  monitor-calidad-agua-iot (src/main.c): the Arduino loop that owns one
  HTTP keep-alive session, sends sensor JSON each tick, classifies the
  response status line and maintains health counters
  (consecutiveTimeouts, lastSuccessfulSend, lastConnectionTime).

  Machine integers: millis() is a 32-bit unsigned counter; unsigned
  subtraction is modelled as subtraction mod 2^32 (usub).  External
  effects (WiFi status, transport liveness, connect success, the lines
  the server sends back, the clock) are supplied by per-tick environment
  records; the transport's own liveness is tracked in the state
  (clientConn) and can only drop spontaneously, never rise, except
  through a successful connect.
-/

namespace WaterMonitor

/-- Compile-time configuration from main.c lines 22-38. -/
def USE_KEEP_ALIVE : Bool := true

def RECONNECT_INTERVAL : Nat := 120000

def UPDATE_INTERVAL : Nat := 1000

def MAX_CONSECUTIVE_TIMEOUTS : Nat := 3

/-- The modulus 2^32 of the 32-bit unsigned long millis() counter. -/
def W32 : Nat := 4294967296

/-- Unsigned 32-bit subtraction `a - b`, as used on millis() values. -/
def usub (a b : Nat) : Nat := (a % W32 + (W32 - b % W32)) % W32

/-- Whitespace as recognised by isspace(), used by String::trim. -/
def isWs (c : Char) : Bool :=
  c = ' ' || c = '\t' || c = '\n' || c = '\x0b' || c = '\x0c' || c = '\r'

/-- Arduino String::trim — strip whitespace from both ends. -/
def trimChars (s : List Char) : List Char :=
  ((s.dropWhile isWs).reverse.dropWhile isWs).reverse

/-- Position of the first occurrence of `c`, if any. -/
def idxOf (c : Char) : List Char → Option Nat
  | [] => none
  | x :: xs => if x = c then some 0 else (idxOf c xs).map (· + 1)

/-- Arduino String::indexOf(c, start): absolute index of the first
occurrence of `c` at or after `start`, or -1. -/
def indexOfFromChar (s : List Char) (c : Char) (start : Nat) : Int :=
  match idxOf c (s.drop start) with
  | some k => ((start + k : Nat) : Int)
  | none => -1

/-- Arduino String::substring(a, b): characters a .. b-1. -/
def subChars (s : List Char) (a b : Nat) : List Char := (s.take b).drop a

/-- Accumulate the value of a leading run of decimal digits. -/
def digitsVal : List Char → Nat → Nat
  | c :: cs, acc => if c.isDigit then digitsVal cs (acc * 10 + (c.toNat - 48)) else acc
  | [], acc => acc

/-- Arduino String::toInt (atol): skip whitespace, optional sign, then
leading digits; 0 when no digits follow.  (Overflow of `long` is not
modelled; status codes are far below 2^31.) -/
def atoiChars (s : List Char) : Int :=
  let t := s.dropWhile isWs
  match t with
  | '-' :: rest => - (digitsVal rest 0 : Int)
  | '+' :: rest => (digitsVal rest 0 : Int)
  | _ => (digitsVal t 0 : Int)

/-- The literal "HTTP/1.1" tested with startsWith in main.c line 325. -/
def httpSig : List Char := "HTTP/1.1".toList

/-- Char-list prefix test (Arduino String::startsWith). -/
def startsWithChars : List Char → List Char → Bool
  | [], _ => true
  | _ :: _, [] => false
  | p :: ps, c :: cs => p = c && startsWithChars ps cs

/-- main.c lines 330-339: extract the status code from the status line.
spaceIndex = indexOf(' '); if > 0, secondSpaceIndex = indexOf(' ',
spaceIndex+1); if > 0, toInt of the substring between them; otherwise the
code stays 0. -/
def parseCode (line : List Char) : Int :=
  let spaceIndex := indexOfFromChar line ' ' 0
  if 0 < spaceIndex then
    let secondSpaceIndex := indexOfFromChar line ' ' (spaceIndex.toNat + 1)
    if 0 < secondSpaceIndex then
      atoiChars (subChars line (spaceIndex.toNat + 1) secondSpaceIndex.toNat)
    else 0
  else 0

/-- main.c lines 317-378, the response read loop: each raw line is
trimmed; the first line starting with "HTTP/1.1" (while statusLine is
still empty) becomes the status line; a blank line ends the header block.
Returns the status line, if one was observed.  `lines` are the raw lines
the loop managed to read before it exited (blank line, disconnect or the
5000 ms window elapsing). -/
def readLoop : List (List Char) → Option (List Char)
  | [] => none
  | raw :: rest =>
    let line := trimChars raw
    if startsWithChars httpSig line then some line
    else if line = [] then none
    else readLoop rest

/-- Session state of the publisher: the program's own flags and counters
(main.c lines 23-43) plus `clientConn`, the transport's liveness as the
program would observe it (true after a successful connect, false after
client.stop(), may drop spontaneously when the peer closes). -/
structure St where
  isConnected : Bool
  clientConn : Bool
  consecutiveTimeouts : Nat
  lastSuccessfulSend : Nat
  lastConnectionTime : Nat
  lastUpdateTime : Nat
deriving DecidableEq, Repr

/-- Initial values of the globals (main.c lines 24-43). -/
def initSt : St :=
  { isConnected := false, clientConn := false, consecutiveTimeouts := 0,
    lastSuccessfulSend := 0, lastConnectionTime := 0, lastUpdateTime := 0 }

/-- Classification of a received status line, mirroring the log chain of
main.c lines 342-365: 200 = success, 202 = mock server (data ignored),
>= 400 = server error, anything else unclassified. -/
inductive RespClass where
  | success
  | acceptedIgnored
  | serverError
  | unclassified
deriving DecidableEq, Repr

def classifyCode (code : Int) : RespClass :=
  if code = 200 then RespClass.success
  else if code = 202 then RespClass.acceptedIgnored
  else if 400 ≤ code then RespClass.serverError
  else RespClass.unclassified

/-- Environment of one enviar_datos_sensores call: clock readings at the
sites where millis() feeds the state, the outcome of the connect attempt,
the transport's liveness at each client.connected() probe, and the raw
lines the response loop read. -/
structure SendEnv where
  tConnCheck : Nat
  connectOk : Bool
  tConnDone : Nat
  liveForSend : Bool
  lines : List (List Char)
  elapsed : Nat
  tRespDone : Nat
  liveAfterResp : Bool
  tKeepAlive : Nat
  tNow : Nat
deriving Repr

/-- Result of one enviar_datos_sensores call. -/
structure SendOut where
  st : St
  attemptedConnect : Bool
  sent : Bool
  responseReceived : Bool
  responseCode : Int
  rclass : RespClass
deriving Repr

/-- main.c lines 294-469, from writing the request onward: read the
response window, run the timeout diagnostics (lines 380-400), the
keep-alive disposition (lines 410-430) and the health-counter update
(lines 431-469).  Entered only with the transport live. -/
def sendPhase (st : St) (env : SendEnv) (ac : Bool) : SendOut :=
  let status := readLoop env.lines
  let received := status.isSome
  let code := match status with
    | some l => parseCode l
    | none => 0
  let st1 :=
    if received then { st with lastConnectionTime := env.tRespDone }
    else if 4000 ≤ env.elapsed then { st with clientConn := false, isConnected := false }
    else st
  let live := st1.clientConn && env.liveAfterResp
  let st2 :=
    if USE_KEEP_ALIVE then
      if live then { st1 with clientConn := live, lastConnectionTime := env.tKeepAlive }
      else { st1 with clientConn := live, isConnected := false }
    else { st1 with clientConn := false, isConnected := false }
  let st3 :=
    if received && code = 200 then
      { st2 with lastSuccessfulSend := env.tNow, consecutiveTimeouts := 0 }
    else if !received then
      { st2 with consecutiveTimeouts := st2.consecutiveTimeouts + 1 }
    else if 400 ≤ code then
      { st2 with consecutiveTimeouts := 0 }
    else st2
  { st := st3, attemptedConnect := ac, sent := true,
    responseReceived := received, responseCode := code,
    rclass := if received then classifyCode code else RespClass.unclassified }

/-- main.c lines 208-469, enviar_datos_sensores.  Sensor reading and JSON
construction do not touch the session state.  If no session is active or
the reconnect interval elapsed (line 246), close and reconnect with a 5 s
budget; a failed connect returns before any counter update (line 279).
Otherwise the existing session is used when the transport is still live
(line 284). -/
def enviar (st : St) (env : SendEnv) : SendOut :=
  if !st.isConnected || RECONNECT_INTERVAL < usub env.tConnCheck st.lastConnectionTime then
    let st1 := { st with clientConn := false, isConnected := false }
    if env.connectOk then
      let st2 := { st1 with clientConn := true, isConnected := true }
      sendPhase { st2 with lastConnectionTime := env.tConnDone } env true
    else
      { st := st1, attemptedConnect := true, sent := false,
        responseReceived := false, responseCode := 0, rclass := RespClass.unclassified }
  else
    if st.clientConn && env.liveForSend then
      sendPhase { st with clientConn := true } env false
    else
      { st := { st with clientConn := false, isConnected := false },
        attemptedConnect := false, sent := false,
        responseReceived := false, responseCode := 0, rclass := RespClass.unclassified }

/-- Environment of one loop() iteration: WiFi status, millis() at the
top of the tick, transport liveness at the keep-alive probe (line 119),
and the environment for the send, used when the update interval fires. -/
structure TickEnv where
  wifiOk : Bool
  now : Nat
  liveKeep : Bool
  send : SendEnv
deriving Repr

/-- Result of one loop() iteration. -/
structure TickOut where
  st : St
  cooldown : Bool
  ranSend : Bool
  attemptedConnect : Bool
  sent : Bool
deriving Repr

/-- main.c lines 115-131, the keep-alive housekeeping of loop(): a dead
transport or an elapsed reconnect interval clears the session. -/
def keepAliveStep (st : St) (env : TickEnv) : St :=
  if USE_KEEP_ALIVE && st.isConnected then
    if !(st.clientConn && env.liveKeep) then
      { st with clientConn := false, isConnected := false, lastConnectionTime := env.now }
    else if RECONNECT_INTERVAL ≤ usub env.now st.lastConnectionTime then
      { st with clientConn := false, isConnected := false, lastConnectionTime := env.now }
    else st
  else st

/-- main.c lines 79-157, loop(): WiFi guard (lines 82-94), cool-down on
too many consecutive timeouts (lines 100-113), keep-alive housekeeping
(lines 115-131), and the update-interval gate around
enviar_datos_sensores (lines 134-153). -/
def tick (st : St) (env : TickEnv) : TickOut :=
  if !env.wifiOk then
    { st := { st with isConnected := false, clientConn := false },
      cooldown := false, ranSend := false, attemptedConnect := false, sent := false }
  else if MAX_CONSECUTIVE_TIMEOUTS ≤ st.consecutiveTimeouts then
    let stc := { st with clientConn := false, isConnected := false }
    { st := { stc with consecutiveTimeouts := 0, lastConnectionTime := 0 },
      cooldown := true, ranSend := false, attemptedConnect := false, sent := false }
  else
    let st1 := keepAliveStep st env
    if UPDATE_INTERVAL ≤ usub env.now st1.lastUpdateTime then
      let out := enviar { st1 with lastUpdateTime := env.now } env.send
      { st := out.st, cooldown := false, ranSend := true,
        attemptedConnect := out.attemptedConnect, sent := out.sent }
    else
      { st := st1, cooldown := false, ranSend := false, attemptedConnect := false, sent := false }

/-- States reachable from power-on by iterating loop(). -/
inductive Reachable : St → Prop where
  | init : Reachable initSt
  | step (st : St) (env : TickEnv) : Reachable st → Reachable (tick st env).st

/-- A SendEnv with inert external behaviour: connect fails, nothing read. -/
def envNull : SendEnv :=
  { tConnCheck := 0, connectOk := false, tConnDone := 0, liveForSend := false,
    lines := [], elapsed := 0, tRespDone := 0, liveAfterResp := false,
    tKeepAlive := 0, tNow := 0 }

/-- The health-counter update of one send grows the consecutive-timeout
counter by at most one. -/
theorem sendPhase_counter_le (st : St) (env : SendEnv) (ac : Bool) :
    (sendPhase st env ac).st.consecutiveTimeouts ≤ st.consecutiveTimeouts + 1 := by
  simp only [sendPhase]
  repeat' split
  all_goals simp_all

/-- One enviar_datos_sensores call grows the consecutive-timeout counter
by at most one. -/
theorem enviar_counter_le (st : St) (env : SendEnv) :
    (enviar st env).st.consecutiveTimeouts ≤ st.consecutiveTimeouts + 1 := by
  simp only [enviar]
  repeat' split
  all_goals first
    | exact sendPhase_counter_le _ _ _
    | simp

/-- After one send, the program's Connected flag is backed by the
transport having reported live at its most recent probe. -/
theorem sendPhase_conn_inv (st : St) (env : SendEnv) (ac : Bool) :
    (sendPhase st env ac).st.isConnected = true →
    (sendPhase st env ac).st.clientConn = true := by
  simp only [sendPhase]
  repeat' split
  all_goals simp_all [USE_KEEP_ALIVE]

/-- After one enviar_datos_sensores call, Connected implies the
transport reported live at its most recent probe. -/
theorem enviar_conn_inv (st : St) (env : SendEnv) :
    (enviar st env).st.isConnected = true →
    (enviar st env).st.clientConn = true := by
  simp only [enviar]
  repeat' split
  all_goals first
    | exact sendPhase_conn_inv _ _ _
    | simp

/-- The keep-alive housekeeping never touches the timeout counter. -/
theorem keepAliveStep_counter (st : St) (env : TickEnv) :
    (keepAliveStep st env).consecutiveTimeouts = st.consecutiveTimeouts := by
  simp only [keepAliveStep]
  repeat' split
  all_goals simp

/-- After the keep-alive housekeeping, Connected implies the transport
reported live at its probe. -/
theorem keepAliveStep_conn_inv (st : St) (env : TickEnv) :
    (keepAliveStep st env).isConnected = true →
    (keepAliveStep st env).clientConn = true := by
  simp only [keepAliveStep]
  repeat' split
  all_goals simp_all [USE_KEEP_ALIVE]

/-- One loop() iteration keeps the consecutive-timeout counter at or
below the threshold whenever it starts there. -/
theorem tick_counter_le (st : St) (env : TickEnv)
    (h : st.consecutiveTimeouts ≤ MAX_CONSECUTIVE_TIMEOUTS) :
    (tick st env).st.consecutiveTimeouts ≤ MAX_CONSECUTIVE_TIMEOUTS := by
  simp only [tick]
  split_ifs with h1 h2 h3
  · simpa using h
  · simp
  · have hc := enviar_counter_le { keepAliveStep st env with lastUpdateTime := env.now } env.send
    have hk := keepAliveStep_counter st env
    simp only [MAX_CONSECUTIVE_TIMEOUTS] at h2 ⊢
    simp at hc ⊢
    omega
  · simpa [keepAliveStep_counter st env] using h

/-- One loop() iteration preserves: Connected implies the transport
reported live at its most recent probe. -/
theorem tick_conn_inv (st : St) (env : TickEnv) :
    (tick st env).st.isConnected = true → (tick st env).st.clientConn = true := by
  simp only [tick]
  split_ifs with h1 h2 h3
  · simp
  · simp
  · have hc := enviar_conn_inv { keepAliveStep st env with lastUpdateTime := env.now } env.send
    simpa using hc
  · simpa using keepAliveStep_conn_inv st env

/-- A SendEnv in which the connect succeeds and the server answers
"HTTP/1.1 200 OK" followed by the end of the header block. -/
def envOkSend : SendEnv :=
  { tConnCheck := 1000, connectOk := true, tConnDone := 1000, liveForSend := true,
    lines := ["HTTP/1.1 200 OK".toList, [] ], elapsed := 0, tRespDone := 1000,
    liveAfterResp := true, tKeepAlive := 1000, tNow := 1000 }

/-- A tick environment around envOkSend: WiFi up, clock at 1000 ms. -/
def envOkTick : TickEnv :=
  { wifiOk := true, now := 1000, liveKeep := true, send := envOkSend }

/-- A tick environment at clock `t` whose connect attempt fails. -/
def envFailAt (t : Nat) : TickEnv :=
  let s := { envNull with tConnCheck := t, tConnDone := t, tRespDone := t }
  { wifiOk := true, now := t, liveKeep := false,
    send := { s with tKeepAlive := t, tNow := t } }

/-- A state whose consecutive-timeout counter sits at the threshold. -/
def stCool : St := { initSt with consecutiveTimeouts := 3 }

/-- C1: a tick that starts with the consecutive-timeout counter at or
above the threshold (3) force-closes any open transport, sets the
session Disconnected, resets the counter to 0 and exits without a
connect or a send attempt; immediately afterwards the counter is 0. -/
theorem cooldown_tick (st : St) (env : TickEnv) (hw : env.wifiOk = true)
    (h : MAX_CONSECUTIVE_TIMEOUTS ≤ st.consecutiveTimeouts) :
    (tick st env).cooldown = true ∧ (tick st env).st.isConnected = false ∧
    (tick st env).st.clientConn = false ∧ (tick st env).st.consecutiveTimeouts = 0 ∧
    (tick st env).ranSend = false ∧ (tick st env).attemptedConnect = false ∧
    (tick st env).sent = false := by
  simp [tick, hw, h]

/-- C1 witness: the cool-down tick at a concrete threshold state. -/
theorem cooldown_tick_witness :
    (tick stCool envOkTick).cooldown = true ∧ (tick stCool envOkTick).st.isConnected = false ∧
    (tick stCool envOkTick).st.clientConn = false ∧
    (tick stCool envOkTick).st.consecutiveTimeouts = 0 ∧
    (tick stCool envOkTick).ranSend = false ∧ (tick stCool envOkTick).attemptedConnect = false ∧
    (tick stCool envOkTick).sent = false :=
  cooldown_tick stCool envOkTick rfl (by decide)

/-- C3: invariant over all reachable states: session state Connected
implies the transport reported itself live at the most recent liveness
probe (a probe returning false synchronously clears the flag before the
next publish attempt; `clientConn` records the probe's outcome). -/
theorem connected_implies_live (st : St) (h : Reachable st) :
    st.isConnected = true → st.clientConn = true := by
  induction h with
  | init => simp [initSt]
  | step st env _ _ => exact tick_conn_inv st env

/-- C3 witness: a concrete reachable, connected state. -/
theorem connected_implies_live_witness :
    (tick initSt envOkTick).st.clientConn = true :=
  connected_implies_live (tick initSt envOkTick).st
    (Reachable.step initSt envOkTick Reachable.init) (by decide)

/-- C9: invariant: the consecutive-timeout counter never exceeds the
threshold (3) in any reachable state — it starts at 0, a tick that finds
it at the threshold resets it before any send, and one send increments
it at most once. -/
theorem counter_le_threshold (st : St) (h : Reachable st) :
    st.consecutiveTimeouts ≤ MAX_CONSECUTIVE_TIMEOUTS := by
  induction h with
  | init => simp [initSt]
  | step st env _ ih => exact tick_counter_le st env ih

/-- C9 witness: the invariant at the initial state. -/
theorem counter_le_threshold_witness :
    initSt.consecutiveTimeouts ≤ MAX_CONSECUTIVE_TIMEOUTS :=
  counter_le_threshold initSt Reachable.init

/-- State after one connect-timeout tick from power-on. -/
def cexS1 : St := (tick initSt (envFailAt 1000)).st

/-- State after two connect-timeout ticks from power-on. -/
def cexS2 : St := (tick cexS1 (envFailAt 2000)).st

/-- State after three connect-timeout ticks from power-on. -/
def cexS3 : St := (tick cexS2 (envFailAt 3000)).st

/-- C2 counterexample: three consecutive ticks whose connect attempts
fail leave the consecutive-timeout counter at 0 (the connect-failure
path returns before the counter update, main.c line 279), so the fourth
tick is not a cool-down: it attempts a connect again. -/
theorem connect_timeouts_not_counted_cex :
    (tick initSt (envFailAt 1000)).attemptedConnect = true ∧
    (tick cexS1 (envFailAt 2000)).attemptedConnect = true ∧
    (tick cexS2 (envFailAt 3000)).attemptedConnect = true ∧
    cexS3.consecutiveTimeouts = 0 ∧
    (tick cexS3 (envFailAt 4000)).cooldown = false ∧
    (tick cexS3 (envFailAt 4000)).attemptedConnect = true ∧
    (tick cexS3 (envFailAt 4000)).ranSend = true := by
  decide

/-- C2 amended: connect-timeouts do not count toward the threshold: a
tick whose connect attempt fails leaves the counter unchanged, sends
nothing and ends Disconnected, so no number of consecutive
connect-timeouts ever produces a cool-down tick. -/
theorem connect_fail_counter_unchanged (st : St) (env : TickEnv)
    (hw : env.wifiOk = true)
    (hlt : st.consecutiveTimeouts < MAX_CONSECUTIVE_TIMEOUTS)
    (hnc : st.isConnected = false)
    (hup : UPDATE_INTERVAL ≤ usub env.now st.lastUpdateTime)
    (hco : env.send.connectOk = false) :
    (tick st env).st.consecutiveTimeouts = st.consecutiveTimeouts ∧
    (tick st env).attemptedConnect = true ∧
    (tick st env).sent = false ∧
    (tick st env).st.isConnected = false := by
  have hnle : ¬ MAX_CONSECUTIVE_TIMEOUTS ≤ st.consecutiveTimeouts := Nat.not_le.mpr hlt
  simp [tick, keepAliveStep, enviar, USE_KEEP_ALIVE, hw, hnc, hnle, hup, hco]

/-- C2 amended witness: the first connect-timeout tick from power-on. -/
theorem connect_fail_counter_unchanged_witness :
    (tick initSt (envFailAt 1000)).st.consecutiveTimeouts = initSt.consecutiveTimeouts ∧
    (tick initSt (envFailAt 1000)).attemptedConnect = true ∧
    (tick initSt (envFailAt 1000)).sent = false ∧
    (tick initSt (envFailAt 1000)).st.isConnected = false :=
  connect_fail_counter_unchanged initSt (envFailAt 1000) rfl (by decide) rfl
    (by decide) rfl

/-- A send that actually issued the request factors through sendPhase,
entered with the transport live, the session Connected, and the health
counters untouched so far. -/
theorem enviar_sent (st : St) (env : SendEnv) (hs : (enviar st env).sent = true) :
    ∃ st0 ac, enviar st env = sendPhase st0 env ac ∧ st0.clientConn = true ∧
      st0.isConnected = true ∧
      st0.consecutiveTimeouts = st.consecutiveTimeouts ∧
      st0.lastSuccessfulSend = st.lastSuccessfulSend := by
  by_cases hb : (!st.isConnected ||
      decide (RECONNECT_INTERVAL < usub env.tConnCheck st.lastConnectionTime)) = true
  · by_cases hco : env.connectOk = true
    · refine ⟨{ st with clientConn := true, isConnected := true, lastConnectionTime := env.tConnDone }, true, ?_, rfl, rfl, rfl, rfl⟩
      simp [enviar, hb, hco]
    · simp [enviar, hb, hco] at hs
  · have hb2 : st.isConnected = true := by
      by_contra hx
      simp only [Bool.not_eq_true] at hx
      simp [hx] at hb
    by_cases hcl : (st.clientConn && env.liveForSend) = true
    · refine ⟨{ st with clientConn := true }, false, ?_, rfl, hb2, rfl, rfl⟩
      simp [enviar, hb, hcl]
    · simp [enviar, hb, hcl] at hs

/-- A send whose status line parses to 200, with the transport still
live afterwards, records the success and keeps the session Connected. -/
theorem sendPhase_200 (st : St) (env : SendEnv) (ac : Bool) (l : List Char)
    (hl : readLoop env.lines = some l) (hc : parseCode l = 200)
    (ha : env.liveAfterResp = true) (hcc : st.clientConn = true)
    (hic : st.isConnected = true) :
    (sendPhase st env ac).st.lastSuccessfulSend = env.tNow ∧
    (sendPhase st env ac).st.consecutiveTimeouts = 0 ∧
    (sendPhase st env ac).st.isConnected = true := by
  simp [sendPhase, hl, hc, ha, hcc, hic, USE_KEEP_ALIVE]

/-- A send whose status line parses to a code at or above 400 resets the
timeout counter, and closes nothing: if the transport still reports live
it stays live and the session stays Connected. -/
theorem sendPhase_err (st : St) (env : SendEnv) (ac : Bool) (l : List Char)
    (hl : readLoop env.lines = some l) (hge : 400 ≤ parseCode l)
    (hcc : st.clientConn = true) (hic : st.isConnected = true) :
    (sendPhase st env ac).st.consecutiveTimeouts = 0 ∧
    (env.liveAfterResp = true →
      (sendPhase st env ac).st.clientConn = true ∧
      (sendPhase st env ac).st.isConnected = true) := by
  have hne : ¬ parseCode l = 200 := by omega
  refine ⟨?_, fun ha => ?_⟩
  · simp [sendPhase, hl, hne, hge, USE_KEEP_ALIVE]
  · simp [sendPhase, hl, hne, hge, ha, hcc, hic, USE_KEEP_ALIVE]

/-- A send whose status line parses to a code that is neither 200 nor at
least 400 leaves the timeout counter and lastSuccessfulSend unchanged. -/
theorem sendPhase_other (st : St) (env : SendEnv) (ac : Bool) (l : List Char)
    (hl : readLoop env.lines = some l)
    (hne : parseCode l ≠ 200) (hlt : parseCode l < 400) :
    (sendPhase st env ac).st.consecutiveTimeouts = st.consecutiveTimeouts ∧
    (sendPhase st env ac).st.lastSuccessfulSend = st.lastSuccessfulSend ∧
    (sendPhase st env ac).responseReceived = true ∧
    (sendPhase st env ac).responseCode = parseCode l ∧
    (sendPhase st env ac).rclass = classifyCode (parseCode l) := by
  have hge : ¬ 400 ≤ parseCode l := by omega
  simp [sendPhase, hl, hne, hge, USE_KEEP_ALIVE, apply_ite]

/-- A send in which no status line was observed increments the timeout
counter by one, and when the wait consumed at least 4000 ms of the
budget it also closes the transport and clears the session. -/
theorem sendPhase_timeout (st : St) (env : SendEnv) (ac : Bool)
    (hl : readLoop env.lines = none) :
    (sendPhase st env ac).st.consecutiveTimeouts = st.consecutiveTimeouts + 1 ∧
    (4000 ≤ env.elapsed →
      (sendPhase st env ac).st.clientConn = false ∧
      (sendPhase st env ac).st.isConnected = false) ∧
    (sendPhase st env ac).responseReceived = false := by
  refine ⟨?_, fun he => ?_, ?_⟩
  · simp [sendPhase, hl, USE_KEEP_ALIVE, apply_ite]
  · simp [sendPhase, hl, he, USE_KEEP_ALIVE]
  · simp [sendPhase, hl]

/-- C4: a tick in which a response with status code 200 is received sets
lastSuccessfulSend to the tick's clock reading, resets the
consecutive-timeout counter to 0, and — keep-alive being enabled — the
session stays Connected since the transport still reports live. -/
theorem resp200_success_updates (st : St) (env : SendEnv) (l : List Char)
    (hl : readLoop env.lines = some l) (hc : parseCode l = 200)
    (ha : env.liveAfterResp = true) (hs : (enviar st env).sent = true) :
    (enviar st env).st.lastSuccessfulSend = env.tNow ∧
    (enviar st env).st.consecutiveTimeouts = 0 ∧
    (enviar st env).st.isConnected = true := by
  obtain ⟨st0, ac, heq, hcc, hic, hct, hlss⟩ := enviar_sent st env hs
  rw [heq]
  exact sendPhase_200 st0 env ac l hl hc ha hcc hic

/-- C4 witness: the 200 response at a concrete state and environment. -/
theorem resp200_success_updates_witness :
    (enviar initSt envOkSend).st.lastSuccessfulSend = envOkSend.tNow ∧
    (enviar initSt envOkSend).st.consecutiveTimeouts = 0 ∧
    (enviar initSt envOkSend).st.isConnected = true :=
  resp200_success_updates initSt envOkSend ("HTTP/1.1 200 OK".toList)
    (by decide) (by decide) rfl (by decide)

/-- A state with the timeout counter part-way up, for witnesses. -/
def stTwo : St := { initSt with consecutiveTimeouts := 2 }

/-- A SendEnv answering "HTTP/1.1 500 Oops". -/
def env500 : SendEnv := { envOkSend with lines := ["HTTP/1.1 500 Oops".toList] }

/-- C5: a tick in which a status line with code at least 400 is received
resets the consecutive-timeout counter to 0 regardless of its prior
value, and the connection is not closed: if the transport still reports
live it remains open and the session stays Connected. -/
theorem server_error_resets_counter (st : St) (env : SendEnv) (l : List Char)
    (hl : readLoop env.lines = some l) (hge : 400 ≤ parseCode l)
    (hs : (enviar st env).sent = true) :
    (enviar st env).st.consecutiveTimeouts = 0 ∧
    (env.liveAfterResp = true →
      (enviar st env).st.clientConn = true ∧
      (enviar st env).st.isConnected = true) := by
  obtain ⟨st0, ac, heq, hcc, hic, hct, hlss⟩ := enviar_sent st env hs
  rw [heq]
  exact sendPhase_err st0 env ac l hl hge hcc hic

/-- C5 witness: a 500 response with the counter previously at 2. -/
theorem server_error_resets_counter_witness :
    (enviar stTwo env500).st.consecutiveTimeouts = 0 ∧
    (env500.liveAfterResp = true →
      (enviar stTwo env500).st.clientConn = true ∧
      (enviar stTwo env500).st.isConnected = true) :=
  server_error_resets_counter stTwo env500 ("HTTP/1.1 500 Oops".toList)
    (by decide) (by decide) (by decide)

/-- A SendEnv answering "HTTP/1.1 202 Accepted". -/
def env202 : SendEnv := { envOkSend with lines := ["HTTP/1.1 202 Accepted".toList] }

/-- C7: a tick whose response status line is "HTTP/1.1 202 Accepted" is
classified accepted-but-ignored, and both the consecutive-timeout
counter and lastSuccessfulSend are left unchanged. -/
theorem accepted_202_ignored (st : St) (env : SendEnv)
    (hl : readLoop env.lines = some ("HTTP/1.1 202 Accepted".toList))
    (hs : (enviar st env).sent = true) :
    (enviar st env).rclass = RespClass.acceptedIgnored ∧
    (enviar st env).st.consecutiveTimeouts = st.consecutiveTimeouts ∧
    (enviar st env).st.lastSuccessfulSend = st.lastSuccessfulSend := by
  obtain ⟨st0, ac, heq, hcc, hic, hct, hlss⟩ := enviar_sent st env hs
  rw [heq]
  have h := sendPhase_other st0 env ac ("HTTP/1.1 202 Accepted".toList) hl
    (by decide) (by decide)
  refine ⟨?_, ?_, ?_⟩
  · rw [h.2.2.2.2]
    decide
  · rw [h.1, hct]
  · rw [h.2.1, hlss]

/-- C7 witness: the 202 response at a concrete state and environment. -/
theorem accepted_202_ignored_witness :
    (enviar stTwo env202).rclass = RespClass.acceptedIgnored ∧
    (enviar stTwo env202).st.consecutiveTimeouts = stTwo.consecutiveTimeouts ∧
    (enviar stTwo env202).st.lastSuccessfulSend = stTwo.lastSuccessfulSend :=
  accepted_202_ignored stTwo env202 (by decide) (by decide)

/-- A SendEnv in which nothing readable arrives for the whole window. -/
def envTimeout : SendEnv :=
  { envOkSend with lines := [], elapsed := 4500, liveAfterResp := false }

/-- C8: a tick in which no status line is observed within the read
window — nothing arrived, or nothing that starts with "HTTP/1.1" before
the header block ended — increments the consecutive-timeout counter by
one; when the elapsed wait reached 4000 ms the transport is additionally
closed and the session set Disconnected. -/
theorem read_timeout_increments (st : St) (env : SendEnv)
    (hl : readLoop env.lines = none) (hs : (enviar st env).sent = true) :
    (enviar st env).st.consecutiveTimeouts = st.consecutiveTimeouts + 1 ∧
    (4000 ≤ env.elapsed →
      (enviar st env).st.clientConn = false ∧
      (enviar st env).st.isConnected = false) := by
  obtain ⟨st0, ac, heq, hcc, hic, hct, hlss⟩ := enviar_sent st env hs
  rw [heq]
  have h := sendPhase_timeout st0 env ac hl
  exact ⟨by rw [h.1, hct], h.2.1⟩

/-- C8 witness: a silent 4500 ms window at a concrete state. -/
theorem read_timeout_increments_witness :
    (enviar initSt envTimeout).st.consecutiveTimeouts = initSt.consecutiveTimeouts + 1 ∧
    (4000 ≤ envTimeout.elapsed →
      (enviar initSt envTimeout).st.clientConn = false ∧
      (enviar initSt envTimeout).st.isConnected = false) :=
  read_timeout_increments initSt envTimeout (by decide) (by decide)

/-- idxOf misses characters that are not in the list. -/
theorem idxOf_eq_none_of_not_mem (c : Char) (l : List Char) (h : c ∉ l) :
    idxOf c l = none := by
  induction l with
  | nil => rfl
  | cons x xs ih =>
    simp only [List.mem_cons, not_or] at h
    have hx : ¬ x = c := fun he => h.1 he.symm
    simp [idxOf, hx, ih h.2]

/-- A hit of idxOf at position k accounts for one occurrence: the whole
count is one more than the count beyond position k. -/
theorem idxOf_some_count (c : Char) (l : List Char) (k : Nat)
    (h : idxOf c l = some k) :
    l.count c = (l.drop (k + 1)).count c + 1 := by
  induction l generalizing k with
  | nil => simp [idxOf] at h
  | cons x xs ih =>
    by_cases hx : x = c
    · simp only [idxOf, if_pos hx] at h
      obtain rfl : (0 : Nat) = k := by simpa using h
      subst hx
      simp
    · simp only [idxOf, if_neg hx] at h
      cases hi : idxOf c xs with
      | none => rw [hi] at h; simp at h
      | some m =>
        rw [hi] at h
        obtain rfl : m + 1 = k := by simpa using h
        have hm := ih m hi
        have hcne : c ≠ x := fun he => hx he.symm
        simp [List.count_cons_of_ne hcne, List.drop_succ_cons, hm]

/-- A line holding at most one space parses to code 0: either there is
no space, a space at position 0, or no second space after the first, and
each branch of the extraction leaves responseCode at 0. -/
theorem parseCode_of_count_le_one (l : List Char) (h : l.count ' ' ≤ 1) :
    parseCode l = 0 := by
  simp only [parseCode, indexOfFromChar, List.drop_zero]
  cases hi : idxOf ' ' l with
  | none => simp
  | some k =>
    simp only [Nat.zero_add]
    by_cases hk : (0 : Int) < (k : Nat)
    · rw [if_pos hk]
      have hcount := idxOf_some_count ' ' l k hi
      have hzero : (l.drop (k + 1)).count ' ' = 0 := by omega
      have hnm : ' ' ∉ l.drop (k + 1) := List.count_eq_zero.mp hzero
      have hnone : idxOf ' ' (l.drop (((k : Nat) : Int).toNat + 1)) = none := by
        simpa using idxOf_eq_none_of_not_mem ' ' (l.drop (k + 1)) hnm
      rw [hnone]
      simp
    · rw [if_neg hk]

/-- C10: a received status line that begins with "HTTP/1.1" (which
readLoop guarantees) but contains no second space parses to code 0: the
tick counts as having received a response, so the timeout counter is not
incremented, yet neither lastSuccessfulSend nor the counter is updated —
the response falls into none of the classes 200, 202, at least 400. -/
theorem no_second_space_code_zero (st : St) (env : SendEnv) (l : List Char)
    (hl : readLoop env.lines = some l) (hsp : l.count ' ' ≤ 1)
    (hs : (enviar st env).sent = true) :
    (enviar st env).responseReceived = true ∧
    (enviar st env).responseCode = 0 ∧
    (enviar st env).rclass = RespClass.unclassified ∧
    (enviar st env).st.consecutiveTimeouts = st.consecutiveTimeouts ∧
    (enviar st env).st.lastSuccessfulSend = st.lastSuccessfulSend := by
  have hp0 := parseCode_of_count_le_one l hsp
  obtain ⟨st0, ac, heq, hcc, hic, hct, hlss⟩ := enviar_sent st env hs
  rw [heq]
  have h := sendPhase_other st0 env ac l hl (by omega) (by omega)
  refine ⟨h.2.2.1, ?_, ?_, ?_, ?_⟩
  · rw [h.2.2.2.1, hp0]
  · rw [h.2.2.2.2, hp0]
    decide
  · rw [h.1, hct]
  · rw [h.2.1, hlss]

/-- A SendEnv answering "HTTP/1.1 200" with no reason phrase. -/
def envNoReason : SendEnv := { envOkSend with lines := ["HTTP/1.1 200".toList] }

/-- C10 witness: the status line "HTTP/1.1 200" at a concrete state. -/
theorem no_second_space_code_zero_witness :
    (enviar stTwo envNoReason).responseReceived = true ∧
    (enviar stTwo envNoReason).responseCode = 0 ∧
    (enviar stTwo envNoReason).rclass = RespClass.unclassified ∧
    (enviar stTwo envNoReason).st.consecutiveTimeouts = stTwo.consecutiveTimeouts ∧
    (enviar stTwo envNoReason).st.lastSuccessfulSend = stTwo.lastSuccessfulSend :=
  no_second_space_code_zero stTwo envNoReason ("HTTP/1.1 200".toList)
    (by decide) (by decide) (by decide)

end WaterMonitor
